import Mathlib

/-
  Verification of `homeassistant/components/xiaomi_miio/number.py`.

  Shallow embedding: the module's tables, the feature resolver of
  `async_setup_entry`, the control factory, and the `XiaomiNumberEntity`
  behaviour (value extraction, availability, set-value, coordinator update)
  are translated into Lean definitions; theorems settle the spec's claims
  about them.

  Numeric values carried by controls are embedded as rationals (the Python
  code passes floats through unchanged; no float arithmetic occurs in this
  module). Device state attributes are either plain numbers or enumeration
  members carrying an underlying scalar, mirroring the `isinstance(value,
  Enum)` test in `_extract_value_from_attribute`.
-/

namespace XiaomiMiioNumber

/-- A Python value held in a device-state attribute: either a plain number
or an enumeration member with a symbolic name and an underlying scalar
value (its `.value`). -/
inductive PyValue where
  | num (v : ℚ)
  | enumMember (name : String) (v : ℚ)
  deriving DecidableEq, Repr

/-- `XiaomiMiioNumberDescription` from number.py: a dataclass extending
`NumberEntityDescription` with bounds, step, the off-availability flag and
the name of the setter method. -/
structure XiaomiMiioNumberDescription where
  key : String
  name : String
  icon : String
  unit_of_measurement : Option String := none
  min_value : Option ℚ := none
  max_value : Option ℚ := none
  step : Option ℚ := none
  available_with_device_off : Bool := true
  method : String
  deriving DecidableEq, Repr

/-- Modelled from the spec: `FEATURE_SET_MOTOR_SPEED` is imported from the
integration's `const` module, which is not part of the sources; per the
spec each feature constant is a single bit of the feature mask. -/
def FEATURE_SET_MOTOR_SPEED : Nat := 8192

/-- Modelled from the spec: `FEATURE_SET_FAVORITE_LEVEL` from the `const`
module (not in the sources); a single bit, distinct from the others. -/
def FEATURE_SET_FAVORITE_LEVEL : Nat := 16

/-- Modelled from the spec: `FEATURE_SET_FAN_LEVEL` from the `const`
module (not in the sources); a single bit, distinct from the others. -/
def FEATURE_SET_FAN_LEVEL : Nat := 4096

/-- Modelled from the spec: `FEATURE_SET_VOLUME` from the `const` module
(not in the sources); a single bit, distinct from the others. -/
def FEATURE_SET_VOLUME : Nat := 128

/-- `NUMBER_TYPES` from number.py: the fixed registry of control
descriptors, keyed by feature bit, in declaration order. -/
def NUMBER_TYPES : List (Nat × XiaomiMiioNumberDescription) :=
  [ (FEATURE_SET_MOTOR_SPEED,
      { key := "motor_speed"
        name := "Motor Speed"
        icon := "mdi:fast-forward-outline"
        unit_of_measurement := some "rpm"
        min_value := some 200
        max_value := some 2000
        step := some 10
        available_with_device_off := false
        method := "async_set_motor_speed" }),
    (FEATURE_SET_FAVORITE_LEVEL,
      { key := "favorite_level"
        name := "Favorite Level"
        icon := "mdi:star-cog"
        min_value := some 0
        max_value := some 17
        step := some 1
        method := "async_set_favorite_level" }),
    (FEATURE_SET_FAN_LEVEL,
      { key := "fan_level"
        name := "Fan Level"
        icon := "mdi:fan"
        min_value := some 1
        max_value := some 3
        step := some 1
        method := "async_set_fan_level" }),
    (FEATURE_SET_VOLUME,
      { key := "volume"
        name := "Volume"
        icon := "mdi:volume-high"
        min_value := some 0
        max_value := some 100
        step := some 1
        method := "async_set_volume" }) ]

/-- Modelled from the spec: model identifier constants from the `const`
module (not in the sources). Only their identity as distinct strings
matters here. -/
def MODEL_AIRHUMIDIFIER_CA1 : String := "zhimi.humidifier.ca1"

/-- Modelled from the spec: model constant from the `const` module. -/
def MODEL_AIRHUMIDIFIER_CA4 : String := "zhimi.humidifier.ca4"

/-- Modelled from the spec: model constant from the `const` module. -/
def MODEL_AIRHUMIDIFIER_CB1 : String := "zhimi.humidifier.cb1"

/-- Modelled from the spec: model constant from the `const` module. -/
def MODEL_AIRPURIFIER_2S : String := "zhimi.airpurifier.mc1"

/-- Modelled from the spec: model constant from the `const` module. -/
def MODEL_AIRPURIFIER_PRO : String := "zhimi.airpurifier.v6"

/-- Modelled from the spec: model constant from the `const` module. -/
def MODEL_AIRPURIFIER_PRO_V7 : String := "zhimi.airpurifier.v7"

/-- Modelled from the spec: model constant from the `const` module. -/
def MODEL_AIRPURIFIER_V1 : String := "zhimi.airpurifier.v1"

/-- Modelled from the spec: model constant from the `const` module. -/
def MODEL_AIRPURIFIER_V3 : String := "zhimi.airpurifier.v3"

/-- Modelled from the spec: model constant from the `const` module. -/
def MODEL_AIRFRESH_VA2 : String := "zhimi.airfresh.va2"

/-- Modelled from the spec: `FEATURE_FLAGS_AIRHUMIDIFIER_CA_AND_CB`, a
feature mask constant from the `const` module (not in the sources); its
exact composition is immaterial to the claims. -/
def FEATURE_FLAGS_AIRHUMIDIFIER_CA_AND_CB : Nat := 1 ||| 2 ||| 4

/-- Modelled from the spec: `FEATURE_FLAGS_AIRHUMIDIFIER_CA4`, a feature
mask from the `const` module; it includes the motor-speed bit. -/
def FEATURE_FLAGS_AIRHUMIDIFIER_CA4 : Nat := 1 ||| 4 ||| FEATURE_SET_MOTOR_SPEED

/-- Modelled from the spec: `FEATURE_FLAGS_AIRPURIFIER_2S`, a feature mask
from the `const` module; it includes the favorite-level bit. -/
def FEATURE_FLAGS_AIRPURIFIER_2S : Nat := 1 ||| 2 ||| FEATURE_SET_FAVORITE_LEVEL

/-- Modelled from the spec: `FEATURE_FLAGS_AIRPURIFIER_PRO`, a feature
mask from the `const` module; it includes the favorite-level and volume
bits. -/
def FEATURE_FLAGS_AIRPURIFIER_PRO : Nat :=
  2 ||| FEATURE_SET_FAVORITE_LEVEL ||| FEATURE_SET_VOLUME

/-- Modelled from the spec: `FEATURE_FLAGS_AIRPURIFIER_PRO_V7`, a feature
mask from the `const` module. -/
def FEATURE_FLAGS_AIRPURIFIER_PRO_V7 : Nat :=
  2 ||| FEATURE_SET_FAVORITE_LEVEL ||| FEATURE_SET_VOLUME

/-- Modelled from the spec: `FEATURE_FLAGS_AIRPURIFIER_V1`, a feature mask
from the `const` module. -/
def FEATURE_FLAGS_AIRPURIFIER_V1 : Nat :=
  1 ||| 2 ||| FEATURE_SET_FAVORITE_LEVEL ||| FEATURE_SET_VOLUME

/-- Modelled from the spec: `FEATURE_FLAGS_AIRPURIFIER_V3`, a feature mask
from the `const` module. -/
def FEATURE_FLAGS_AIRPURIFIER_V3 : Nat := 1 ||| 4 ||| FEATURE_SET_FAVORITE_LEVEL

/-- Modelled from the spec: `FEATURE_FLAGS_AIRFRESH`, a feature mask from
the `const` module. -/
def FEATURE_FLAGS_AIRFRESH : Nat := 1 ||| 2 ||| 4 ||| FEATURE_SET_VOLUME

/-- Modelled from the spec: `FEATURE_FLAGS_AIRPURIFIER_MIIO`, the shared
default feature mask of the MIIO-protocol purifier family, from the
`const` module; it includes the favorite-level bit. -/
def FEATURE_FLAGS_AIRPURIFIER_MIIO : Nat :=
  1 ||| 2 ||| 4 ||| FEATURE_SET_FAVORITE_LEVEL

/-- Modelled from the spec: `FEATURE_FLAGS_AIRPURIFIER_MIOT`, the shared
default feature mask of the MIOT-protocol purifier family, from the
`const` module; it includes the favorite-level and fan-level bits. -/
def FEATURE_FLAGS_AIRPURIFIER_MIOT : Nat :=
  1 ||| 4 ||| FEATURE_SET_FAVORITE_LEVEL ||| FEATURE_SET_FAN_LEVEL

/-- Modelled from the spec: `CONF_DEVICE`, the device flow-type
discriminator constant from the `const` module. -/
def CONF_DEVICE : String := "device"

/-- `MODEL_TO_FEATURES_MAP` from number.py: the explicit model-to-feature
mask table, in declaration order (Python dicts preserve it; keys are
distinct, so first-match lookup equals dict lookup). -/
def MODEL_TO_FEATURES_MAP : List (String × Nat) :=
  [ (MODEL_AIRHUMIDIFIER_CA1, FEATURE_FLAGS_AIRHUMIDIFIER_CA_AND_CB),
    (MODEL_AIRHUMIDIFIER_CA4, FEATURE_FLAGS_AIRHUMIDIFIER_CA4),
    (MODEL_AIRHUMIDIFIER_CB1, FEATURE_FLAGS_AIRHUMIDIFIER_CA_AND_CB),
    (MODEL_AIRPURIFIER_2S, FEATURE_FLAGS_AIRPURIFIER_2S),
    (MODEL_AIRPURIFIER_PRO, FEATURE_FLAGS_AIRPURIFIER_PRO),
    (MODEL_AIRPURIFIER_PRO_V7, FEATURE_FLAGS_AIRPURIFIER_PRO_V7),
    (MODEL_AIRPURIFIER_V1, FEATURE_FLAGS_AIRPURIFIER_V1),
    (MODEL_AIRPURIFIER_V3, FEATURE_FLAGS_AIRPURIFIER_V3),
    (MODEL_AIRFRESH_VA2, FEATURE_FLAGS_AIRFRESH) ]

/-- The coordinator's cached device-state snapshot: an on/off flag plus
named attributes (`getattr(state, attribute)` becomes application of
`attrs`). -/
structure DeviceState where
  is_on : Bool
  attrs : String → PyValue

/-- The configuration entry fields read by `async_setup_entry`. -/
structure ConfigEntry where
  flow_type : String
  model : String
  title : String
  unique_id : String
  deriving DecidableEq, Repr

/-- `XiaomiNumberEntity._extract_value_from_attribute`: read the named
attribute; an enumeration member is replaced by its underlying scalar
value, everything else passes through unchanged. -/
def extract_value_from_attribute (state : DeviceState) (attr : String) : PyValue :=
  match state.attrs attr with
  | .enumMember _ v => .num v
  | v => v

/-- The entity state of `XiaomiNumberEntity` relevant to this module:
name, unique id, the `_attr_*` fields set in `__init__`, and the
descriptor. -/
structure XiaomiNumberEntity where
  name : String
  unique_id : String
  attr_min_value : Option ℚ
  attr_max_value : Option ℚ
  attr_step : Option ℚ
  attr_value : PyValue
  entity_description : XiaomiMiioNumberDescription

/-- `XiaomiNumberEntity.__init__`: bounds and step come from the
descriptor, the initial value is extracted from the coordinator's cached
state through the descriptor key. -/
def XiaomiNumberEntity.init (name : String) (unique_id : String)
    (coordinatorData : DeviceState) (description : XiaomiMiioNumberDescription) :
    XiaomiNumberEntity :=
  { name := name
    unique_id := unique_id
    attr_min_value := description.min_value
    attr_max_value := description.max_value
    attr_step := description.step
    attr_value := extract_value_from_attribute coordinatorData description.key
    entity_description := description }

/-- The control-factory loop of `async_setup_entry` (lines 133-144): one
entity per registry descriptor whose feature bit is set in the resolved
mask, in registry order, named and identified from the entry. -/
def buildControls (coordinatorData : DeviceState) (config_entry : ConfigEntry)
    (features : Nat) : List XiaomiNumberEntity :=
  (NUMBER_TYPES.filter (fun fd => fd.1 &&& features ≠ 0)).map (fun fd =>
    XiaomiNumberEntity.init
      (config_entry.title ++ " " ++ fd.2.name)
      (fd.2.key ++ "_" ++ config_entry.unique_id)
      coordinatorData fd.2)

/-- The feature-resolution chain of `async_setup_entry` (lines 124-131):
explicit table first, then the MIIO family list, then the MIOT family
list, else no mask. The family lists live in the `const` module (not in
the sources), so they are parameters here. -/
def resolveFeatures (modelsPurifierMiio modelsPurifierMiot : List String)
    (model : String) : Option Nat :=
  match MODEL_TO_FEATURES_MAP.lookup model with
  | some features => some features
  | none =>
    if model ∈ modelsPurifierMiio then some FEATURE_FLAGS_AIRPURIFIER_MIIO
    else if model ∈ modelsPurifierMiot then some FEATURE_FLAGS_AIRPURIFIER_MIOT
    else none

/-- `async_setup_entry` from number.py: return no entities unless the
entry's flow type is the device flow type; resolve the feature mask from
the model; build one control per matching descriptor. A `[]` result models
the early `return` paths (no error is signalled; the function is total). -/
def async_setup_entry (modelsPurifierMiio modelsPurifierMiot : List String)
    (coordinatorData : DeviceState) (config_entry : ConfigEntry) :
    List XiaomiNumberEntity :=
  if ¬ (config_entry.flow_type = CONF_DEVICE) then []
  else
    match resolveFeatures modelsPurifierMiio modelsPurifierMiot config_entry.model with
    | none => []
    | some features => buildControls coordinatorData config_entry features

/-- Result of `async_set_value`: the entity state afterwards, how many
times `async_write_ha_state` ran, and the argument list the bound setter
method was invoked with. -/
structure SetValueResult where
  entity : XiaomiNumberEntity
  write_ha_state_count : Nat
  setter_calls : List ℚ

/-- `XiaomiNumberEntity.async_set_value`: invoke the descriptor's bound
setter with exactly the given value; on reported success mirror the value
and write state once; on failure change nothing and write nothing. The
setter (the method named by the descriptor, wrapping `_try_command`) is
external and modelled by its success function. -/
def XiaomiNumberEntity.async_set_value (e : XiaomiNumberEntity)
    (setter : ℚ → Bool) (value : ℚ) : SetValueResult :=
  if setter value then
    { entity := { e with attr_value := .num value }
      write_ha_state_count := 1
      setter_calls := [value] }
  else
    { entity := e
      write_ha_state_count := 0
      setter_calls := [value] }

/-- `XiaomiNumberEntity._handle_coordinator_update`: overwrite the
mirrored value with the value extracted from the coordinator's fresh
state, then write state once. Returns the new entity state and the number
of `async_write_ha_state` calls. -/
def XiaomiNumberEntity.handle_coordinator_update (e : XiaomiNumberEntity)
    (coordinatorData : DeviceState) : XiaomiNumberEntity × Nat :=
  ({ e with
      attr_value := extract_value_from_attribute coordinatorData
        e.entity_description.key },
   1)

/-- `XiaomiNumberEntity.available`: false when the base is available, the
device is off and the descriptor forbids interaction while off; otherwise
the base availability. `super().available` is external and passed in. -/
def XiaomiNumberEntity.available (e : XiaomiNumberEntity)
    (superAvailable : Bool) (coordinatorData : DeviceState) : Bool :=
  if superAvailable ∧ ¬ coordinatorData.is_on
      ∧ ¬ e.entity_description.available_with_device_off then
    false
  else
    superAvailable

/-- A device-on sample state with every attribute a plain number. -/
def sampleState : DeviceState :=
  { is_on := true, attrs := fun _ => PyValue.num 0 }

/-- A device-off sample state with every attribute a plain number. -/
def offState : DeviceState :=
  { is_on := false, attrs := fun _ => PyValue.num 3 }

/-- A sample state whose `fan_level` attribute is an enumeration member. -/
def enumState : DeviceState :=
  { is_on := true
    attrs := fun a =>
      if a = "fan_level" then PyValue.enumMember "Low" 1 else PyValue.num 0 }

/-- A sample motor-speed control, as `__init__` builds it. -/
def sampleEntity : XiaomiNumberEntity :=
  XiaomiNumberEntity.init "Dev Motor Speed" "motor_speed_u1" sampleState
    { key := "motor_speed"
      name := "Motor Speed"
      icon := "mdi:fast-forward-outline"
      unit_of_measurement := some "rpm"
      min_value := some 200
      max_value := some 2000
      step := some 10
      available_with_device_off := false
      method := "async_set_motor_speed" }

/-- A device-flow entry whose model is in no table and no family list. -/
def unknownEntry : ConfigEntry :=
  { flow_type := "device", model := "acme.unknown", title := "T", unique_id := "u1" }

/-- A cloud-flow entry whose model does sit in the explicit table. -/
def cloudEntry : ConfigEntry :=
  { flow_type := "cloud", model := MODEL_AIRHUMIDIFIER_CA4, title := "T", unique_id := "u2" }

/-- A device-flow entry for the Air Purifier Pro model. -/
def proEntry : ConfigEntry :=
  { flow_type := "device", model := MODEL_AIRPURIFIER_PRO, title := "Pro", unique_id := "u3" }

/-- The favorite-level control that setup builds for `proEntry`. -/
def cFav : XiaomiNumberEntity :=
  XiaomiNumberEntity.init (proEntry.title ++ " " ++ "Favorite Level")
    ("favorite_level" ++ "_" ++ proEntry.unique_id) sampleState
    { key := "favorite_level"
      name := "Favorite Level"
      icon := "mdi:star-cog"
      min_value := some 0
      max_value := some 17
      step := some 1
      method := "async_set_favorite_level" }

/-- The volume control that setup builds for `proEntry`. -/
def cVol : XiaomiNumberEntity :=
  XiaomiNumberEntity.init (proEntry.title ++ " " ++ "Volume")
    ("volume" ++ "_" ++ proEntry.unique_id) sampleState
    { key := "volume"
      name := "Volume"
      icon := "mdi:volume-high"
      min_value := some 0
      max_value := some 100
      step := some 1
      method := "async_set_volume" }

/-- The registry's descriptor keys, in declaration order. -/
def numberKeys : List String := ["motor_speed", "favorite_level", "fan_level", "volume"]

lemma mem_buildControls {c : XiaomiNumberEntity} {st : DeviceState}
    {entry : ConfigEntry} {features : Nat}
    (h : c ∈ buildControls st entry features) :
    ∃ fd ∈ NUMBER_TYPES,
      c = XiaomiNumberEntity.init (entry.title ++ " " ++ fd.2.name)
            (fd.2.key ++ "_" ++ entry.unique_id) st fd.2 := by
  unfold buildControls at h
  obtain ⟨fd, hfd, rfl⟩ := List.mem_map.1 h
  exact ⟨fd, (List.mem_filter.1 hfd).1, rfl⟩

lemma mem_setup {c : XiaomiNumberEntity} {miio miot : List String}
    {st : DeviceState} {entry : ConfigEntry}
    (h : c ∈ async_setup_entry miio miot st entry) :
    ∃ fd ∈ NUMBER_TYPES,
      c = XiaomiNumberEntity.init (entry.title ++ " " ++ fd.2.name)
            (fd.2.key ++ "_" ++ entry.unique_id) st fd.2 := by
  unfold async_setup_entry at h
  split at h
  · cases h
  · split at h
    · cases h
    · exact mem_buildControls h

lemma setup_entity_shape {c : XiaomiNumberEntity} {miio miot : List String}
    {st : DeviceState} {entry : ConfigEntry}
    (h : c ∈ async_setup_entry miio miot st entry) :
    c.entity_description.key ∈ numberKeys
    ∧ c.unique_id = c.entity_description.key ++ "_" ++ entry.unique_id := by
  obtain ⟨fd, hfd, rfl⟩ := mem_setup h
  simp only [NUMBER_TYPES, List.mem_cons, List.not_mem_nil, or_false] at hfd
  rcases hfd with h | h | h | h <;> subst h <;> refine ⟨?_, rfl⟩ <;>
    simp [XiaomiNumberEntity.init, numberKeys]

lemma append_ne_of_incomparable {a b : List Char}
    (hab : ¬ a <+: b) (hba : ¬ b <+: a) (u v : List Char) : a ++ u ≠ b ++ v := by
  intro h
  rcases List.append_eq_append_iff.1 h with ⟨w, hw, _⟩ | ⟨w, hw, _⟩
  · exact hab ⟨w, hw.symm⟩
  · exact hba ⟨w, hw.symm⟩

lemma key_append_ne (k1 k2 u1 u2 : String)
    (hk : (k1 = k2 ∧ u1 ≠ u2)
      ∨ (¬ (k1.data ++ ('_' :: [])) <+: (k2.data ++ ('_' :: []))
          ∧ ¬ (k2.data ++ ('_' :: [])) <+: (k1.data ++ ('_' :: [])))) :
    k1 ++ "_" ++ u1 ≠ k2 ++ "_" ++ u2 := by
  rcases hk with ⟨rfl, hu⟩ | ⟨h1, h2⟩
  · intro he
    apply hu
    apply String.ext
    have hd := congrArg String.data he
    simp only [String.data_append] at hd
    rw [List.append_assoc, List.append_assoc] at hd
    exact List.append_cancel_left (List.append_cancel_left hd)
  · intro he
    have hd := congrArg String.data he
    simp only [String.data_append] at hd
    exact append_ne_of_incomparable h1 h2 u1.data u2.data hd

lemma numberKeys_incomparable :
    ∀ k1 ∈ numberKeys, ∀ k2 ∈ numberKeys, k1 ≠ k2 →
      ¬ (k1.data ++ ('_' :: [])) <+: (k2.data ++ ('_' :: [])) := by decide

lemma cFav_mem : cFav ∈ async_setup_entry [] [] sampleState proEntry := by
  show cFav ∈ [cFav, cVol]
  exact List.mem_cons_self _ _

lemma cVol_mem : cVol ∈ async_setup_entry [] [] sampleState proEntry := by
  show cVol ∈ [cFav, cVol]
  exact List.mem_cons_of_mem _ (List.mem_cons_self _ _)

end XiaomiMiioNumber

namespace XiaomiMiioNumber

/-- C1: feature resolution is first-match in order: an explicit table
entry wins outright (whatever the family lists contain); otherwise
membership in the MIIO family list yields the MIIO default mask; otherwise
membership in the MIOT family list yields the MIOT default mask; otherwise
no mask is resolved and setup creates no controls. -/
theorem c1_feature_resolution_first_match (miio miot : List String) (model : String) :
    (∀ features, MODEL_TO_FEATURES_MAP.lookup model = some features →
        resolveFeatures miio miot model = some features)
    ∧ (MODEL_TO_FEATURES_MAP.lookup model = none → model ∈ miio →
        resolveFeatures miio miot model = some FEATURE_FLAGS_AIRPURIFIER_MIIO)
    ∧ (MODEL_TO_FEATURES_MAP.lookup model = none → model ∉ miio → model ∈ miot →
        resolveFeatures miio miot model = some FEATURE_FLAGS_AIRPURIFIER_MIOT)
    ∧ (MODEL_TO_FEATURES_MAP.lookup model = none → model ∉ miio → model ∉ miot →
        resolveFeatures miio miot model = none ∧
        ∀ st entry, entry.model = model →
          async_setup_entry miio miot st entry = []) := by
  refine ⟨?_, ?_, ?_, ?_⟩
  · intro features h
    simp [resolveFeatures, h]
  · intro h hm
    simp [resolveFeatures, h, hm]
  · intro h hm1 hm2
    simp [resolveFeatures, h, hm1, hm2]
  · intro h hm1 hm2
    have hres : resolveFeatures miio miot model = none := by
      simp [resolveFeatures, h, hm1, hm2]
    refine ⟨hres, ?_⟩
    intro st entry hmodel
    unfold async_setup_entry
    split
    · rfl
    · rw [hmodel, hres]

/-- C1 witness: all four resolution branches at concrete inputs; the table
entry for `MODEL_AIRPURIFIER_V3` wins even with that model in the MIIO
family list. -/
theorem c1_feature_resolution_first_match_witness :
    resolveFeatures [ MODEL_AIRPURIFIER_V3] [] MODEL_AIRPURIFIER_V3
        = some FEATURE_FLAGS_AIRPURIFIER_V3
    ∧ resolveFeatures ["acme.purifier.miio"] [] "acme.purifier.miio"
        = some FEATURE_FLAGS_AIRPURIFIER_MIIO
    ∧ resolveFeatures [] ["acme.purifier.miot"] "acme.purifier.miot"
        = some FEATURE_FLAGS_AIRPURIFIER_MIOT
    ∧ resolveFeatures [] [] "acme.unknown" = none
    ∧ async_setup_entry [] [] offState unknownEntry = [] :=
  ⟨(c1_feature_resolution_first_match [ MODEL_AIRPURIFIER_V3] [] MODEL_AIRPURIFIER_V3).1
      FEATURE_FLAGS_AIRPURIFIER_V3 (by decide),
   (c1_feature_resolution_first_match ["acme.purifier.miio"] [] "acme.purifier.miio").2.1
      (by decide) (by simp),
   (c1_feature_resolution_first_match [] ["acme.purifier.miot"] "acme.purifier.miot").2.2.1
      (by decide) (by simp) (by simp),
   ((c1_feature_resolution_first_match [] [] "acme.unknown").2.2.2
      (by decide) (by simp) (by simp)).1,
   ((c1_feature_resolution_first_match [] [] "acme.unknown").2.2.2
      (by decide) (by simp) (by simp)).2 offState unknownEntry rfl⟩

/-- C2: the controls built for a mask are exactly the registry descriptors
whose feature bit is set, one per descriptor in registry order; setup
produces precisely this list whenever the mask resolves; a mask with only
the favorite-level bit yields exactly one control, keyed `favorite_level`
with bounds 0 and 17 and step 1. -/
theorem c2_controls_match_feature_mask (features : Nat) (st : DeviceState)
    (entry : ConfigEntry) :
    (buildControls st entry features).map (fun e => e.entity_description)
      = (NUMBER_TYPES.filter (fun fd => fd.1 &&& features ≠ 0)).map (fun fd => fd.2)
    ∧ (∀ miio miot, entry.flow_type = CONF_DEVICE →
        resolveFeatures miio miot entry.model = some features →
        async_setup_entry miio miot st entry = buildControls st entry features)
    ∧ (features = FEATURE_SET_FAVORITE_LEVEL →
        ∃ e, buildControls st entry features = [e]
          ∧ e.entity_description.key = "favorite_level"
          ∧ e.attr_min_value = some 0
          ∧ e.attr_max_value = some 17
          ∧ e.attr_step = some 1) := by
  refine ⟨?_, ?_, ?_⟩
  · unfold buildControls
    rw [List.map_map]
    rfl
  · intro miio miot hflow hres
    unfold async_setup_entry
    rw [hflow, hres]
    simp
  · intro h
    subst h
    exact ⟨_, rfl, rfl, rfl, rfl, rfl⟩

/-- C2 witness: the favorite-level-only mask yields one control with the
claimed key, bounds and step, and setup for the Pro model equals the
factory output for its resolved mask. -/
theorem c2_controls_match_feature_mask_witness :
    (buildControls sampleState unknownEntry FEATURE_SET_FAVORITE_LEVEL).map
        (fun e => (e.entity_description.key, e.attr_min_value, e.attr_max_value, e.attr_step))
      = [("favorite_level", some 0, some 17, some 1)]
    ∧ async_setup_entry [] [] sampleState proEntry
        = buildControls sampleState proEntry FEATURE_FLAGS_AIRPURIFIER_PRO := by
  constructor
  · obtain ⟨e, he, hk, hmin, hmax, hstep⟩ :=
      (c2_controls_match_feature_mask FEATURE_SET_FAVORITE_LEVEL sampleState
        unknownEntry).2.2 rfl
    rw [he]
    simp [hk, hmin, hmax, hstep]
  · exact (c2_controls_match_feature_mask FEATURE_FLAGS_AIRPURIFIER_PRO sampleState
      proEntry).2.1 [] [] rfl (by decide)

/-- C3: a setter call reported successful makes the mirrored value exactly
the requested value with exactly one state-write; a failed call leaves the
entity unchanged with zero state-writes. -/
theorem c3_set_value_success_failure (e : XiaomiNumberEntity)
    (setter : Rat → Bool) (v : Rat) :
    (setter v = true →
        (e.async_set_value setter v).entity.attr_value = PyValue.num v ∧
        (e.async_set_value setter v).write_ha_state_count = 1)
    ∧ (setter v = false →
        (e.async_set_value setter v).entity = e ∧
        (e.async_set_value setter v).write_ha_state_count = 0) := by
  constructor <;> intro h <;>
    simp [XiaomiNumberEntity.async_set_value, h]

/-- C3 witness: a succeeding setter at value 5 and a failing setter at
value 20, on the sample motor-speed control. -/
theorem c3_set_value_success_failure_witness :
    ((sampleEntity.async_set_value (fun _ => true) 5).entity.attr_value
        = PyValue.num 5
      ∧ (sampleEntity.async_set_value (fun _ => true) 5).write_ha_state_count = 1)
    ∧ ((sampleEntity.async_set_value (fun _ => false) 20).entity = sampleEntity
      ∧ (sampleEntity.async_set_value (fun _ => false) 20).write_ha_state_count = 0) :=
  ⟨(c3_set_value_success_failure sampleEntity (fun _ => true) 5).1 rfl,
   (c3_set_value_success_failure sampleEntity (fun _ => false) 20).2 rfl⟩

/-- C4: a coordinator refresh always sets the mirrored value to the value
extracted from the fresh coordinator state under the descriptor key —
whatever value was mirrored before — and writes state exactly once. -/
theorem c4_coordinator_update_overwrites (e : XiaomiNumberEntity) (st : DeviceState) :
    (e.handle_coordinator_update st).1.attr_value
        = extract_value_from_attribute st e.entity_description.key
    ∧ (e.handle_coordinator_update st).2 = 1 :=
  ⟨rfl, rfl⟩

/-- C5: availability is false whenever the device is off and the
descriptor's off-availability flag is false; in every other case it equals
the delegated platform-base availability. -/
theorem c5_availability (e : XiaomiNumberEntity) (superAvailable : Bool)
    (st : DeviceState) :
    (st.is_on = false → e.entity_description.available_with_device_off = false →
        e.available superAvailable st = false)
    ∧ (st.is_on = true ∨ e.entity_description.available_with_device_off = true →
        e.available superAvailable st = superAvailable) := by
  constructor
  · intro h1 h2
    cases superAvailable <;> simp [XiaomiNumberEntity.available, h1, h2]
  · intro h
    rcases h with h | h <;> simp [XiaomiNumberEntity.available, h]

/-- C5 witness: the motor-speed control (not available while off) is
unavailable on an off device even with the base available, and delegates
on an on device. -/
theorem c5_availability_witness :
    sampleEntity.available true offState = false
    ∧ sampleEntity.available true sampleState = true :=
  ⟨(c5_availability sampleEntity true offState).1 rfl rfl,
   (c5_availability sampleEntity true sampleState).2 (Or.inl rfl)⟩

/-- C6: a model absent from the explicit table and from both family lists
makes setup produce zero controls; the embedding is a total function, so
the empty result is a value, not an error. -/
theorem c6_unknown_model_yields_no_controls (miio miot : List String)
    (st : DeviceState) (entry : ConfigEntry)
    (h : MODEL_TO_FEATURES_MAP.lookup entry.model = none)
    (h1 : entry.model ∉ miio) (h2 : entry.model ∉ miot) :
    async_setup_entry miio miot st entry = [] := by
  unfold async_setup_entry
  split
  · rfl
  · rw [show resolveFeatures miio miot entry.model = none from by
      simp [resolveFeatures, h, h1, h2]]

/-- C6 witness: a device-flow entry with an unknown model yields the empty
control list. -/
theorem c6_unknown_model_yields_no_controls_witness :
    async_setup_entry [] [] offState unknownEntry = [] :=
  c6_unknown_model_yields_no_controls [] [] offState unknownEntry
    (by decide) (by simp) (by simp)

/-- C7: reading a value projects the state attribute named by the key; an
enumeration member surfaces its underlying scalar value, a plain number
passes through; the same projection is applied at construction and on
every coordinator refresh. -/
theorem c7_enum_value_projection (st : DeviceState) (key nm : String) (v : Rat) :
    (st.attrs key = PyValue.enumMember nm v →
        extract_value_from_attribute st key = PyValue.num v)
    ∧ (st.attrs key = PyValue.num v →
        extract_value_from_attribute st key = PyValue.num v)
    ∧ (∀ n u descr, descr.key = key →
        (XiaomiNumberEntity.init n u st descr).attr_value
          = extract_value_from_attribute st key)
    ∧ (∀ e : XiaomiNumberEntity, e.entity_description.key = key →
        (e.handle_coordinator_update st).1.attr_value
          = extract_value_from_attribute st key) := by
  refine ⟨?_, ?_, ?_, ?_⟩
  · intro h
    unfold extract_value_from_attribute
    rw [h]
  · intro h
    unfold extract_value_from_attribute
    rw [h]
  · intro n u descr h
    subst h
    rfl
  · intro e h
    rw [show (e.handle_coordinator_update st).1.attr_value
        = extract_value_from_attribute st e.entity_description.key from rfl, h]

/-- C7 witness: the enumerated `fan_level` attribute surfaces its scalar
value 1; a plain attribute passes through; construction and refresh use
the same projection at concrete inputs. -/
theorem c7_enum_value_projection_witness :
    extract_value_from_attribute enumState "fan_level" = PyValue.num 1
    ∧ extract_value_from_attribute enumState "volume" = PyValue.num 0
    ∧ (XiaomiNumberEntity.init "n" "u" enumState
        { key := "favorite_level"
          name := "Favorite Level"
          icon := "mdi:star-cog"
          min_value := some 0
          max_value := some 17
          step := some 1
          method := "async_set_favorite_level" }).attr_value
        = extract_value_from_attribute enumState "favorite_level"
    ∧ (sampleEntity.handle_coordinator_update enumState).1.attr_value
        = extract_value_from_attribute enumState "motor_speed" :=
  ⟨(c7_enum_value_projection enumState "fan_level" "Low" 1).1 rfl,
   (c7_enum_value_projection enumState "volume" "Low" 0).2.1 rfl,
   (c7_enum_value_projection enumState "favorite_level" "Low" 0).2.2.1 "n" "u"
      { key := "favorite_level"
        name := "Favorite Level"
        icon := "mdi:star-cog"
        min_value := some 0
        max_value := some 17
        step := some 1
        method := "async_set_favorite_level" } rfl,
   (c7_enum_value_projection enumState "motor_speed" "Low" 0).2.2.2 sampleEntity rfl⟩

/-- C8: every control built by setup has unique id equal to its descriptor
key, an underscore, and the entry's unique id, and any two controls whose
(descriptor key, entry unique id) pairs differ have different unique ids. -/
theorem c8_unique_id_no_collision (miioA miotA miioB miotB : List String)
    (stA stB : DeviceState) (eA eB : ConfigEntry) (cA cB : XiaomiNumberEntity)
    (hA : cA ∈ async_setup_entry miioA miotA stA eA)
    (hB : cB ∈ async_setup_entry miioB miotB stB eB)
    (hne : (cA.entity_description.key, eA.unique_id)
        ≠ (cB.entity_description.key, eB.unique_id)) :
    cA.unique_id = cA.entity_description.key ++ "_" ++ eA.unique_id
    ∧ cB.unique_id = cB.entity_description.key ++ "_" ++ eB.unique_id
    ∧ cA.unique_id ≠ cB.unique_id := by
  obtain ⟨hkA, huA⟩ := setup_entity_shape hA
  obtain ⟨hkB, huB⟩ := setup_entity_shape hB
  refine ⟨huA, huB, ?_⟩
  rw [huA, huB]
  by_cases hk : cA.entity_description.key = cB.entity_description.key
  · refine key_append_ne _ _ _ _ (Or.inl ⟨hk, ?_⟩)
    intro hu
    exact hne (by rw [hk, hu])
  · exact key_append_ne _ _ _ _ (Or.inr
      ⟨numberKeys_incomparable _ hkA _ hkB hk,
       numberKeys_incomparable _ hkB _ hkA (Ne.symm hk)⟩)

/-- C8 witness: the favorite-level and volume controls that setup builds
for the Pro entry carry distinct unique ids. -/
theorem c8_unique_id_no_collision_witness : cFav.unique_id ≠ cVol.unique_id :=
  (c8_unique_id_no_collision [] [] [] [] sampleState sampleState proEntry proEntry
    cFav cVol cFav_mem cVol_mem (by decide)).2.2

/-- C9: an entry whose flow-type discriminator is not the device flow type
makes setup return the empty control list, whatever the entry's model. -/
theorem c9_non_device_flow_returns_early (miio miot : List String)
    (st : DeviceState) (entry : ConfigEntry)
    (h : entry.flow_type ≠ CONF_DEVICE) :
    async_setup_entry miio miot st entry = [] := by
  unfold async_setup_entry
  simp [h]

/-- C9 witness: a cloud-flow entry yields no controls even though its
model has an explicit table entry. -/
theorem c9_non_device_flow_returns_early_witness :
    async_setup_entry [] [] offState cloudEntry = []
    ∧ MODEL_TO_FEATURES_MAP.lookup cloudEntry.model
        = some FEATURE_FLAGS_AIRHUMIDIFIER_CA4 :=
  ⟨c9_non_device_flow_returns_early [] [] offState cloudEntry (by decide), by decide⟩

/-- C10: set-value performs no range or step validation: the bound setter
is invoked with exactly the requested value, and on reported success the
mirrored value becomes exactly that value, un-clamped. -/
theorem c10_set_value_no_validation (e : XiaomiNumberEntity)
    (setter : Rat → Bool) (v : Rat) :
    (e.async_set_value setter v).setter_calls = [v]
    ∧ (setter v = true →
        (e.async_set_value setter v).entity.attr_value = PyValue.num v) := by
  constructor
  · unfold XiaomiNumberEntity.async_set_value
    split <;> rfl
  · intro h
    simp [XiaomiNumberEntity.async_set_value, h]

/-- C10 witness: the value 4321/2 is above the motor-speed maximum of 2000
and off its step grid, yet it is passed to the setter verbatim and
mirrored exactly on success. -/
theorem c10_set_value_no_validation_witness :
    (sampleEntity.async_set_value (fun _ => true) (4321 / 2)).setter_calls = [4321 / 2]
    ∧ (sampleEntity.async_set_value (fun _ => true) (4321 / 2)).entity.attr_value
        = PyValue.num (4321 / 2)
    ∧ sampleEntity.attr_max_value = some 2000
    ∧ (2000 : Rat) < 4321 / 2 :=
  ⟨(c10_set_value_no_validation sampleEntity (fun _ => true) (4321 / 2)).1,
   (c10_set_value_no_validation sampleEntity (fun _ => true) (4321 / 2)).2 rfl,
   rfl, by norm_num⟩

end XiaomiMiioNumber
